import Mathlib

/-!
Verification of the rsvid SPIFFE-identity core.

The development shallowly embeds the repository's two modules:

* `src/url.rs` — the `SpiffeID` model (parsing a URI into a validated
  SPIFFE identity, plus the `trust_domain`/`workload_id` accessors), and
* `src/svid/x509.rs` — the X.509-SVID validator (`validate_spiffe_id`,
  `X509SVID::from_certificate`, `validate_svid`).

The two external collaborators (the generic URL library and the X.509
decoder) are modelled from the spec's collaborator interfaces (§6): a
`ParsedUrl` record exposing scheme, host, port, query, fragment, username
and password, and an `X509` record exposing Subject Alternative Names
and the Basic Constraints / Key Usage extension bits.  Rust panics
(`unimplemented!()`, `Option::expect`) are made observable through the
`PanicOr` outcome type, since several claims are about the absence of
aborts.
-/

namespace Rsvid

/-- Host component of a parsed URL, as exposed by the external URL
library (`url::Host`): a registered/opaque domain name or a bracketed
IPv6 address.  `Url::domain()` returns a value only for the former. -/
inductive Host where
  | domain (value : String)
  | ipv6 (value : String)
deriving Repr, DecidableEq

/-- Modelled from the spec (§6): the view of an already-parsed URL that
the generic URL library hands to this crate — scheme, username,
password, host, port, path, query and fragment.  Absent components are
`none`; the username is the empty string when absent, mirroring
`Url::username`.  The port is kept as its digit string. -/
structure ParsedUrl where
  scheme : String
  username : String
  password : Option String
  host : Option Host
  port : Option String
  path : String
  query : Option String
  fragment : Option String
deriving Repr, DecidableEq

/-- Equality of `Except` results is decidable componentwise, so the
concrete runs below can be checked by evaluation. -/
instance instDecEqExcept {ε α : Type} [DecidableEq ε] [DecidableEq α] :
    DecidableEq (Except ε α) := fun x y =>
  match x, y with
  | Except.ok a, Except.ok b =>
    if h : a = b then isTrue (by rw [h])
    else isFalse (fun hc => h (by injection hc))
  | Except.ok _, Except.error _ => isFalse (fun hc => Except.noConfusion hc)
  | Except.error _, Except.ok _ => isFalse (fun hc => Except.noConfusion hc)
  | Except.error e, Except.error f =>
    if h : e = f then isTrue (by rw [h])
    else isFalse (fun hc => h (by injection hc))

/-- ASCII lower-casing of one character, as the URL library applies to
the scheme and as `str::to_lowercase` behaves on ASCII input. -/
def lowerChar (c : Char) : Char :=
  if ('A' ≤ c ∧ c ≤ 'Z') then Char.ofNat (c.toNat + 32) else c

/-- ASCII lower-casing of a string. -/
def lowerString (s : String) : String :=
  String.mk (s.data.map lowerChar)

/-- Split a character list at the first character satisfying `p`:
returns the prefix before it and, when found, the matching character
together with the remainder after it. -/
def splitAtFirst (p : Char → Bool) : List Char → List Char × Option (Char × List Char)
  | [] => ([], none)
  | c :: cs =>
    if p c then ([], some (c, cs))
    else
      let r := splitAtFirst p cs
      (c :: r.1, r.2)

/-- An empty port string counts as no port, as in the WHATWG grammar. -/
def mkPort (p : List Char) : Option String :=
  if p = [] then none else some (String.mk p)

/-- Modelled from the spec (§6): host/port parsing of the authority as
the external URL library performs it — a bracketed IPv6 literal or an
opaque domain, optionally followed by `:port`.  An empty authority means
no host. -/
def parseHostPort (cs : List Char) : Option (Option Host × Option String) :=
  if cs = [] then some (none, none)
  else if cs.head? = some ('[') then
    match splitAtFirst (fun c => c == ']') cs.tail with
    | (inner, some (_, rest)) =>
      if rest = [] then some (some (Host.ipv6 (String.mk inner)), none)
      else if rest.head? = some (':') then
        some (some (Host.ipv6 (String.mk inner)), mkPort rest.tail)
      else none
    | (_, none) => none
  else
    match splitAtFirst (fun c => c == ':') cs with
    | (h, none) => some (some (Host.domain (String.mk h)), none)
    | (h, some (_, p)) =>
      if h = [] then none
      else some (some (Host.domain (String.mk h)), mkPort p)

/-- Modelled from the spec (§6): split the authority into userinfo
(`username[:password]@`) and host/port. -/
def parseAuthority (cs : List Char) :
    Option (String × Option String × Option Host × Option String) :=
  match splitAtFirst (fun c => c == '@') cs with
  | (_, none) =>
    (parseHostPort cs).map (fun hp => (("" : String), (none : Option String), hp.1, hp.2))
  | (ui, some (_, hostport)) =>
    let up := splitAtFirst (fun c => c == ':') ui
    let user := String.mk up.1
    let pass := up.2.map (fun x => String.mk x.2)
    (parseHostPort hostport).map (fun hp => (user, pass, hp.1, hp.2))

/-- Remaining characters once the authority has been read: the path and
the optional query and fragment. -/
def parseAfterAuthorityStart (scheme : List Char) (rest2 : List Char) : Option ParsedUrl :=
  let split1 := splitAtFirst (fun c => c == '/' || c == '?' || c == '#') rest2
  let remainder : List Char := match split1.2 with
    | none => []
    | some (c, tl) => c :: tl
  match parseAuthority split1.1 with
  | none => none
  | some (user, pass, host, port) =>
    let split2 := splitAtFirst (fun c => c == '#') remainder
    let fragment := split2.2.map (fun x => String.mk x.2)
    let split3 := splitAtFirst (fun c => c == '?') split2.1
    let query := split3.2.map (fun x => String.mk x.2)
    some (ParsedUrl.mk (lowerString (String.mk scheme)) user pass host port
      (String.mk split3.1) query fragment)

/-- Modelled from the spec (§6): `Url::parse` of the external URL
library — split the scheme at the first `:` (lower-casing it, as the
WHATWG parser does), then either an authority-based URL after `//` or a
cannot-be-a-base URL whose opaque remainder becomes the path.  Inputs
without a scheme separator fail to parse (`RelativeUrlWithoutBase`). -/
def parseUrl (s : String) : Option ParsedUrl :=
  match splitAtFirst (fun c => c == ':') s.data with
  | (_, none) => none
  | (schemeCs, some (_, rest)) =>
    if schemeCs = [] then none
    else if rest.take 2 = [('/'), ('/')] then
      parseAfterAuthorityStart schemeCs (rest.drop 2)
    else
      some (ParsedUrl.mk (lowerString (String.mk schemeCs)) ("") none none none
        (String.mk rest) none none)

/-- Serialization of a host, brackets restored around IPv6 literals. -/
def hostToString : Host → String
  | Host.domain d => d
  | Host.ipv6 h => ("[") ++ h ++ ("]")

/-- Modelled from the spec (§6): `Url::to_string` / `Display` of the
external URL library — scheme, `//` and userinfo/host/port when a host
is present, then path, query and fragment verbatim. -/
def serializeUrl (u : ParsedUrl) : String :=
  u.scheme ++ (":") ++
  (match u.host with
   | none => ""
   | some h =>
     ("//") ++
     (if u.username = ("") ∧ u.password = none then ("")
      else u.username ++ (match u.password with
        | some p => (":") ++ p
        | none => "") ++ ("@")) ++
     hostToString h ++
     (match u.port with
      | some p => (":") ++ p
      | none => "")) ++
  u.path ++
  (match u.query with
   | some q => ("?") ++ q
   | none => "") ++
  (match u.fragment with
   | some f => ("#") ++ f
   | none => "")

/-- Split a character list on every occurrence of `sep`, never returning
an empty list of groups — the behaviour of Rust's `str::split`. -/
def splitChar (sep : Char) : List Char → List (List Char)
  | [] => [[]]
  | c :: cs =>
    if c = sep then [] :: splitChar sep cs
    else
      match splitChar sep cs with
      | [] => [[c]]
      | g :: gs => (c :: g) :: gs

/-- `Url::path_segments`: when the path starts with `/`, the remainder
split on `/`; otherwise (cannot-be-a-base or empty path) `none`. -/
def ParsedUrl.path_segments (u : ParsedUrl) : Option (List String) :=
  if u.path.data.head? = some ('/') then
    some ((splitChar ('/') u.path.data.tail).map String.mk)
  else none

/-- The error enum of `src/url.rs` (`ParseError`): a wrapped URL-library
failure, or a SPIFFE-constraint violation carrying its message (the
`Cow<'static, str>` payload built by the `ensure_id!` macro). -/
inductive ParseError where
  | invalidUrl
  | invalidSPIFFEID (msg : String)
deriving Repr, DecidableEq

/-- The `SpiffeID` value of `src/url.rs`: a validated wrapper around the
parsed URL. -/
structure SpiffeID where
  url : ParsedUrl
deriving Repr, DecidableEq

/-- The SPIFFE-specific checks of `SpiffeID::new`
(`src/url.rs:44-55`), applied to an already-parsed URL, in source
order: scheme, host presence, fragment, query, port, password,
username; each failure produces `InvalidSPIFFEID` with the exact
`ensure_id!` message. -/
def newFromUrl (u : ParsedUrl) : Except ParseError SpiffeID :=
  if lowerString u.scheme = ("spiffe") then
    if u.host.isSome then
      match u.fragment with
      | some f => Except.error (ParseError.invalidSPIFFEID
          (("Fragment is not allowed, found: `") ++ f ++ ("`")))
      | none =>
        match u.query with
        | some q => Except.error (ParseError.invalidSPIFFEID
            (("Query is not allowed, found: `") ++ q ++ ("`")))
        | none =>
          match u.port with
          | some p => Except.error (ParseError.invalidSPIFFEID
              (("Port is not allowed, found: `") ++ p ++ ("`")))
          | none =>
            match u.password with
            | some pw => Except.error (ParseError.invalidSPIFFEID
                (("Password is not allowed, found: `") ++ pw ++ ("`")))
            | none =>
              if u.username = ("") then Except.ok (SpiffeID.mk u)
              else Except.error (ParseError.invalidSPIFFEID
                (("Username is not allowed, found: `") ++ u.username ++ ("`")))
    else Except.error (ParseError.invalidSPIFFEID
      (("Host is empty: `") ++ serializeUrl u ++ ("`")))
  else Except.error (ParseError.invalidSPIFFEID
    (("Expected Scheme spiffe, found: `") ++ u.scheme ++ ("`")))

/-- `SpiffeID::new` (`src/url.rs:40-55`): parse the input through the
URL collaborator, wrapping a parse failure as `InvalidUrl`, then apply
the SPIFFE checks. -/
def SpiffeID.new (s : String) : Except ParseError SpiffeID :=
  match parseUrl s with
  | none => Except.error ParseError.invalidUrl
  | some u => newFromUrl u

/-- `SpiffeID::is_workload` (`src/url.rs:57-62`): the first path
segment, when the path has segments, is non-empty; `true` when there
are no path segments (`unwrap_or(true)`). -/
def SpiffeID.is_workload (id : SpiffeID) : Bool :=
  match id.url.path_segments with
  | none => true
  | some segs =>
    match segs.head? with
    | none => true
    | some s => !s.isEmpty

/-- `SpiffeID::workload_id` (`src/url.rs:68-72`): the path segments
joined with `/`, kept only when `is_workload` holds. -/
def SpiffeID.workload_id (id : SpiffeID) : Option String :=
  match id.url.path_segments with
  | none => none
  | some segs =>
    if id.is_workload then some (String.intercalate ("/") segs) else none

/-- Outcome of running Rust code that may panic: a value, or an abort
with the panic message. -/
inductive PanicOr (α : Type) where
  | ok (a : α)
  | panicked (msg : String)
deriving Repr, DecidableEq

/-- `SpiffeID::trust_domain` (`src/url.rs:64-66`):
`self.url.domain().expect("Bug on Host validation")` — the domain when
the host is a domain, a panic otherwise (`Url::domain()` is `none` for
IP hosts). -/
def SpiffeID.trust_domain (id : SpiffeID) : PanicOr String :=
  match id.url.host with
  | some (Host.domain d) => PanicOr.ok d
  | _ => PanicOr.panicked ("Bug on Host validation")

/-- `ToString for SpiffeID` (`src/url.rs:79-83`): the URL's own
serialization. -/
def SpiffeID.to_string (id : SpiffeID) : String :=
  serializeUrl id.url

/-- Modelled from the spec (§4.1): `is_root()` is absent from
`src/url.rs`; the spec defines it as the negation of workload presence,
whose source realization is `SpiffeID::is_workload`
(`src/url.rs:57-62`, the discriminator the repository's own
`test_root_path` asserts on). -/
def SpiffeID.is_root (id : SpiffeID) : Bool :=
  !id.is_workload

/-- The URI components the SPIFFE profile forbids, in the spec's
vocabulary (§4.1 / §7, `DisallowedComponent(which, value)`). -/
inductive UrlComponent where
  | fragment
  | query
  | port
  | password
  | username
deriving Repr, DecidableEq

/-- The spec's `IdError` kinds for the post-parse checks (§7):
`InvalidScheme(found)`, `MissingTrustDomain`,
`DisallowedComponent(which, value)`. -/
inductive IdErrorKind where
  | invalidScheme (found : String)
  | missingTrustDomain
  | disallowed (which : UrlComponent) (value : String)
deriving Repr, DecidableEq

/-- The first forbidden component present in a parsed URL, in the
spec's check order (§4.1): fragment, query, port, password, username —
together with its value. -/
def firstDisallowed (u : ParsedUrl) : Option (UrlComponent × String) :=
  match u.fragment with
  | some f => some (UrlComponent.fragment, f)
  | none =>
    match u.query with
    | some q => some (UrlComponent.query, q)
    | none =>
      match u.port with
      | some p => some (UrlComponent.port, p)
      | none =>
        match u.password with
        | some pw => some (UrlComponent.password, pw)
        | none =>
          if u.username = ("") then none
          else some (UrlComponent.username, u.username)

/-- The spec's ordered validation (§4.1): the error kind of the first
failing check — scheme, host presence, then the first forbidden
component — or `none` when every check passes. -/
def specValidate (u : ParsedUrl) : Option IdErrorKind :=
  if lowerString u.scheme = ("spiffe") then
    if u.host.isSome then
      (firstDisallowed u).map (fun cv => IdErrorKind.disallowed cv.1 cv.2)
    else some IdErrorKind.missingTrustDomain
  else some (IdErrorKind.invalidScheme u.scheme)

/-- The message template each forbidden component produces in
`src/url.rs:46-50`. -/
def componentMsg : UrlComponent → String → String
  | UrlComponent.fragment, v => ("Fragment is not allowed, found: `") ++ v ++ ("`")
  | UrlComponent.query, v => ("Query is not allowed, found: `") ++ v ++ ("`")
  | UrlComponent.port, v => ("Port is not allowed, found: `") ++ v ++ ("`")
  | UrlComponent.password, v => ("Password is not allowed, found: `") ++ v ++ ("`")
  | UrlComponent.username, v => ("Username is not allowed, found: `") ++ v ++ ("`")

/-- How `src/url.rs` realizes each spec error kind: the single
`ParseError::InvalidSPIFFEID` variant carrying that kind's distinct
message template. -/
def renderIdError (u : ParsedUrl) : IdErrorKind → ParseError
  | IdErrorKind.invalidScheme found => ParseError.invalidSPIFFEID
      (("Expected Scheme spiffe, found: `") ++ found ++ ("`"))
  | IdErrorKind.missingTrustDomain => ParseError.invalidSPIFFEID
      (("Host is empty: `") ++ serializeUrl u ++ ("`"))
  | IdErrorKind.disallowed c v => ParseError.invalidSPIFFEID (componentMsg c v)

/-- The result the spec's ordered validation (§4.1) prescribes for a
parsed URL, with each error kind rendered as its source message. -/
def specResult (u : ParsedUrl) : Except ParseError SpiffeID :=
  match specValidate u with
  | some k => Except.error (renderIdError u k)
  | none => Except.ok (SpiffeID.mk u)

/-- Key Usage extension bits of a decoded certificate, as exposed by
the X.509 collaborator (§6). -/
structure KeyUsage where
  digital_signature : Bool
  key_encipherment : Bool
  key_cert_sign : Bool
  crl_sign : Bool
deriving Repr, DecidableEq

/-- A Subject Alternative Name entry, typed by kind
(`openssl::x509::GeneralName`); `validate_spiffe_id` keeps only the
`uri` entries. -/
inductive GeneralName where
  | uri (value : String)
  | dns (value : String)
  | ip (value : String)
  | email (value : String)
deriving Repr, DecidableEq

/-- Modelled from the spec (§6): the decoded certificate view the
external X.509 library provides — SAN entries (absent when the
certificate has no SAN extension), the Basic Constraints `isCA` flag
and the Key Usage bits. -/
structure X509 where
  subject_alt_names : Option (List GeneralName)
  basic_constraints_ca : Bool
  key_usage : KeyUsage
deriving Repr, DecidableEq

/-- The error enum of `src/svid/x509.rs` (`ParseError`): an SVID
constraint violation carrying its message, a wrapped SPIFFE-ID parse
error, or a wrapped X.509 decoding failure. -/
inductive SvidParseError where
  | invalidSVID (msg : String)
  | invalidSPIFFEID (e : ParseError)
  | invalidX509
deriving Repr, DecidableEq

/-- `CertificateType` of `src/svid/x509.rs`. -/
inductive CertificateType where
  | leaf
  | signing
deriving Repr, DecidableEq

/-- The `X509SVID` value of `src/svid/x509.rs`. -/
structure X509SVID where
  cert_type : CertificateType
  inner : X509
  spiffe_id : SpiffeID
deriving Repr, DecidableEq

/-- The URI-kind SAN entries, in order
(`sans.iter().filter_map(|v| v.uri())`). -/
def uriEntries (l : List GeneralName) : List String :=
  l.filterMap (fun g =>
    match g with
    | GeneralName.uri v => some v
    | _ => none)

/-- Rust's `{:?}` rendering of a vector of strings, as interpolated
into the more-than-one-URI message (quote escaping inside the strings
is not modelled; the inputs used here contain none). -/
def rustDebugList (l : List String) : String :=
  ("[") ++ String.intercalate (", ") (l.map (fun s => ("\"") ++ s ++ ("\""))) ++ ("]")

/-- `validate_spiffe_id` (`src/svid/x509.rs:118-141`): require a SAN
extension, take the URI entries, parse the first through
`SpiffeID::new` (wrapping its failure), then reject when further URI
entries remain, carrying their `{:?}` rendering. -/
def validate_spiffe_id (cert : X509) : Except SvidParseError SpiffeID :=
  match cert.subject_alt_names with
  | none => Except.error (SvidParseError.invalidSVID ("Doesn't has SAN"))
  | some sans =>
    match uriEntries sans with
    | [] => Except.error (SvidParseError.invalidSVID ("Doesn't has URI SAN"))
    | first :: remained =>
      match SpiffeID.new first with
      | Except.error e => Except.error (SvidParseError.invalidSPIFFEID e)
      | Except.ok id =>
        if remained = [] then Except.ok id
        else Except.error (SvidParseError.invalidSVID
          (("More than one SAN URI Type found: ") ++ rustDebugList remained))

/-- `X509SVID::from_certificate` (`src/svid/x509.rs:72-76`): validate
the SPIFFE ID, propagating its error; when validation succeeds the
function body is `unimplemented!()`, which aborts. -/
def X509SVID.from_certificate (cert : X509) :
    PanicOr (Except SvidParseError X509SVID) :=
  match validate_spiffe_id cert with
  | Except.error e => PanicOr.ok (Except.error e)
  | Except.ok _ => PanicOr.panicked ("not implemented")

/-- `validate_svid` (`src/svid/x509.rs:103-106`): the whole body is
`unimplemented!()`. -/
def validate_svid (_cert : X509) : PanicOr (Option SvidParseError) :=
  PanicOr.panicked ("not implemented")

/-- Characters that may appear in a plain (non-IP) host without acting
as an authority delimiter. -/
def goodHostChar (c : Char) : Bool :=
  !(c == ':' || c == '/' || c == '@' || c == '?' || c == '#' || c == '[' || c == ']')

/-- Characters that may appear inside one path segment without acting
as a segment, query or fragment delimiter. -/
def goodSegChar (c : Char) : Bool :=
  !(c == '/' || c == '?' || c == '#')

/-- The path spelled by a list of segments, one `/` before each — the
path shape of a SPIFFE ID string with no redundant separators. -/
def pathOfSegs : List String → String
  | [] => ""
  | s :: rest => ("/") ++ s ++ pathOfSegs rest

/-- Whether the first path segment exists and is non-empty — the
condition §4.1 states for `workload_id()` being `Some`. -/
def firstSegNonempty (id : SpiffeID) : Bool :=
  match id.url.path_segments with
  | some (s :: _) => !s.isEmpty
  | _ => false

/-- A decoded certificate carrying one valid SPIFFE URI SAN (the
repository's own happy-path shape, cf. `mk_ca_signed_cert` in
`src/lib.rs`). -/
def c1cert : X509 :=
  X509.mk (some [GeneralName.uri ("spiffe://domain.com/AWS/AA")]) false
    (KeyUsage.mk true true false false)

/-- The `SpiffeID` the source accepts for `spiffe://[::1]/a`: an IPv6
host passes `has_host()`. -/
def c1ipv6 : SpiffeID :=
  SpiffeID.mk (ParsedUrl.mk ("spiffe") ("") none (some (Host.ipv6 ("::1"))) none ("/a")
    none none)

/-- The spec's §8 scenario 5 certificate: SAN URIs
`["spiffe://example.org/ns/svc"]`, `isCA = false`,
`digitalSignature = true`. -/
def c2cert : X509 :=
  X509.mk (some [GeneralName.uri ("spiffe://example.org/ns/svc")]) false
    (KeyUsage.mk true false false false)

/-- The parsed URL of `spiffe://example.org/ns/svc`. -/
def c2url : ParsedUrl :=
  ParsedUrl.mk ("spiffe") ("") none (some (Host.domain ("example.org"))) none
    ("/ns/svc") none none

/-- A certificate with two URI SAN entries whose first is not a URL at
all. -/
def c3cert : X509 :=
  X509.mk (some [GeneralName.uri ("not-a-url"), GeneralName.uri ("spiffe://b.org/y")])
    false (KeyUsage.mk true false false false)

/-- A certificate with two URI SAN entries whose first is a valid
SPIFFE ID. -/
def c3cert2 : X509 :=
  X509.mk (some [GeneralName.uri ("spiffe://a.org/x"), GeneralName.uri ("spiffe://b.org/y")])
    false (KeyUsage.mk true false false false)

/-- An internally contradictory certificate: `isCA = false` yet only
the signing-only `keyCertSign` usage bit, with a single valid SPIFFE
URI SAN. -/
def c4cert : X509 :=
  X509.mk (some [GeneralName.uri ("spiffe://example.org/wl")]) false
    (KeyUsage.mk false false true false)

/-- The parse of `http://example.org:8443/ns`: a URI that contains a
port but whose scheme is not `spiffe`. -/
def c6httpUrl : ParsedUrl :=
  ParsedUrl.mk ("http") ("") none (some (Host.domain ("example.org"))) (some ("8443"))
    ("/ns") none none

/-- The parse of `spiffe://?a`: a URI that contains a query but no
host. -/
def c6noHostUrl : ParsedUrl :=
  ParsedUrl.mk ("spiffe") ("") none none none ("") (some ("a")) none

/-- The parse of `spiffe://example.org:8443/ns`, the spec's §8
scenario 3. -/
def c6portUrl : ParsedUrl :=
  ParsedUrl.mk ("spiffe") ("") none (some (Host.domain ("example.org"))) (some ("8443"))
    ("/ns") none none

/-- The `SpiffeID` produced for `SPIFFE://example.org/ns/svc`: the URL
library lower-cases the scheme while parsing. -/
def c7badId : SpiffeID :=
  SpiffeID.mk c2url

/-- The `SpiffeID` produced for `spiffe://example.org` (no trailing
slash): its stored path is empty. -/
def c8id : SpiffeID :=
  SpiffeID.mk (ParsedUrl.mk ("spiffe") ("") none (some (Host.domain ("example.org")))
    none ("") none none)

/-- The `SpiffeID` produced for `spiffe://example.org/ns/svc`, used to
instantiate the workload/root law. -/
def c8wid : SpiffeID :=
  SpiffeID.mk c2url

/-- The `SpiffeID` produced for `spiffe://example.org//a`: its path
keeps the empty first segment. -/
def c9id : SpiffeID :=
  SpiffeID.mk (ParsedUrl.mk ("spiffe") ("") none (some (Host.domain ("example.org")))
    none ("//a") none none)

/-- The `SpiffeID` produced for `spiffe://example.org///aaa`, the
input the repository's `test_root_path` accepts. -/
def c9wid : SpiffeID :=
  SpiffeID.mk (ParsedUrl.mk ("spiffe") ("") none (some (Host.domain ("example.org")))
    none ("///aaa") none none)

/-- A certificate with two URI SAN entries whose first does not parse
as a URL, used against the SAN-extraction order. -/
def c10cert : X509 :=
  X509.mk (some [GeneralName.uri ("not-a-url"), GeneralName.uri ("spiffe://b.org/y")])
    false (KeyUsage.mk true false false false)

/-- Two strings with the same character data are equal. -/
theorem str_ext {s t : String} (h : s.data = t.data) : s = t := by
  cases s
  cases t
  cases h
  rfl

/-- A non-empty string has non-empty character data. -/
theorem str_data_ne_nil {s : String} (h : s ≠ ("")) : s.data ≠ [] := by
  intro hd
  apply h
  cases s
  cases hd
  rfl

/-- `splitAtFirst` finds nothing on a list with no matching
character. -/
theorem splitAtFirst_eq_none (p : Char → Bool) (l : List Char)
    (h : ∀ c ∈ l, p c = false) : splitAtFirst p l = (l, none) := by
  induction l with
  | nil => rfl
  | cons c cs ih =>
    simp only [splitAtFirst, h c (List.mem_cons_self c cs)]
    simp [ih (fun x hx => h x (List.mem_cons_of_mem c hx))]

/-- `splitAtFirst` splits at the first matching character. -/
theorem splitAtFirst_append (p : Char → Bool) (a : List Char) (c : Char) (b : List Char)
    (ha : ∀ x ∈ a, p x = false) (hc : p c = true) :
    splitAtFirst p (a ++ c :: b) = (a, some (c, b)) := by
  induction a with
  | nil => simp [splitAtFirst, hc]
  | cons x xs ih =>
    simp only [List.cons_append, splitAtFirst, ha x (List.mem_cons_self x xs)]
    simp [ih (fun y hy => ha y (List.mem_cons_of_mem x hy))]

/-- The character at which `splitAtFirst` splits satisfies the
predicate. -/
theorem splitAtFirst_found (p : Char → Bool) :
    ∀ (l a : List Char) (c : Char) (b : List Char),
      splitAtFirst p l = (a, some (c, b)) → p c = true := by
  intro l
  induction l with
  | nil =>
    intro a c b h
    simp [splitAtFirst] at h
  | cons x xs ih =>
    intro a c b h
    simp only [splitAtFirst] at h
    by_cases hx : p x = true
    · rw [if_pos hx] at h
      injection h with h1 h2
      injection h2 with h3
      injection h3 with h4 h5
      exact h4 ▸ hx
    · rw [if_neg hx] at h
      injection h with h1 h2
      exact ih _ c b (by rw [← h2])

/-- The SPIFFE checks of `SpiffeID::new` coincide, on every parsed URL,
with the spec's ordered validation rendered through the source's
message templates. -/
theorem newFromUrl_eq_specResult (u : ParsedUrl) : newFromUrl u = specResult u := by
  obtain ⟨sch, user, pass, host, port, path, query, frag⟩ := u
  by_cases hs : lowerString sch = ("spiffe")
  · cases host <;> cases frag <;> cases query <;> cases port <;> cases pass <;>
      by_cases hu : user = ("") <;>
      simp [newFromUrl, specResult, specValidate, firstDisallowed, renderIdError,
        componentMsg, hs, hu]
  · simp [newFromUrl, specResult, specValidate, renderIdError, hs]

/-- A URL accepted by the SPIFFE checks is stored as-is and has a
host. -/
theorem newFromUrl_ok (u : ParsedUrl) (id : SpiffeID)
    (h : newFromUrl u = Except.ok id) : id.url = u ∧ u.host.isSome = true := by
  obtain ⟨sch, user, pass, host, port, path, query, frag⟩ := u
  by_cases hs : lowerString sch = ("spiffe") <;>
    cases host <;> cases frag <;> cases query <;> cases port <;> cases pass <;>
    by_cases hu : user = ("") <;>
    simp_all [newFromUrl] <;>
    simp [← h]

/-- Any URL the model parser produces with a host has an empty path or
a path beginning with `/` — the shape `Url::path_segments` relies
on. -/
theorem parseUrl_path_shape (s : String) (u : ParsedUrl)
    (h : parseUrl s = some u) (hh : u.host.isSome = true) :
    u.path.data = [] ∨ u.path.data.head? = some ('/') := by
  unfold parseUrl at h
  rcases h1 : splitAtFirst (fun c => c == ':') s.data with ⟨a, _ | ⟨c0, rest⟩⟩
  · rw [h1] at h
    exact absurd h (by simp)
  · rw [h1] at h
    simp only [] at h
    by_cases ha : a = []
    · rw [if_pos ha] at h
      exact absurd h (by simp)
    · rw [if_neg ha] at h
      by_cases h2 : rest.take 2 = [('/'), ('/')]
      · rw [if_pos h2] at h
        simp only [parseAfterAuthorityStart] at h
        rcases h3 : splitAtFirst (fun c => c == '/' || c == '?' || c == '#') (rest.drop 2)
          with ⟨auth, _ | ⟨c1, tl⟩⟩
        · rw [h3] at h
          simp only [] at h
          rcases h4 : parseAuthority auth with _ | ⟨user, pass, host, port⟩
          · rw [h4] at h
            exact absurd h (by simp)
          · rw [h4] at h
            simp only [splitAtFirst, Option.some.injEq] at h
            left
            rw [← h]
        · rw [h3] at h
          simp only [] at h
          rcases h4 : parseAuthority auth with _ | ⟨user, pass, host, port⟩
          · rw [h4] at h
            exact absurd h (by simp)
          · rw [h4] at h
            have pc1 := splitAtFirst_found _ _ _ _ _ h3
            by_cases hsh : c1 = '#'
            · simp only [splitAtFirst, hsh, Option.some.injEq] at h
              simp only [show (('#' : Char) == '#') = true from rfl, if_true] at h
              left
              rw [← h]
            · simp only [splitAtFirst, Option.some.injEq,
                show ((c1 == '#') = false) from by simpa using hsh] at h
              by_cases hq : c1 = '?'
              · simp only [hq, show (('?' : Char) == '?') = true from rfl, if_true] at h
                left
                rw [← h]
              · simp only [show ((c1 == '?') = false) from by simpa using hq,
                  Bool.false_eq_true, if_false] at h
                have hc1 : c1 = '/' := by
                  simp only [show ((c1 == '#') = false) from by simpa using hsh,
                    show ((c1 == '?') = false) from by simpa using hq,
                    Bool.or_false] at pc1
                  simpa using pc1
                right
                rw [← h]
                simp [hc1]
      · rw [if_neg h2] at h
        injection h with h5
        rw [← h5] at hh
        exact absurd hh (by simp)

/-- Rust's `split` never yields an empty group list. -/
theorem splitChar_ne_nil (sep : Char) (l : List Char) : splitChar sep l ≠ [] := by
  induction l with
  | nil => simp [splitChar]
  | cons c cs ih =>
    by_cases h : c = sep
    · simp [splitChar, h]
    · simp only [splitChar, h, if_false]
      cases hs : splitChar sep cs with
      | nil => simp
      | cons g gs => simp

/-- A host character is not an authority-ending delimiter. -/
theorem goodHost_not_authEnd {c : Char} (h : goodHostChar c = true) :
    (c == '/' || c == '?' || c == '#') = false := by
  simp only [goodHostChar, Bool.not_eq_true', Bool.or_eq_false_iff] at h
  simp [h.1.1.1.1.1.2, h.1.1.1.2, h.1.1.2]

/-- A host character is not `@`. -/
theorem goodHost_not_at {c : Char} (h : goodHostChar c = true) : (c == '@') = false := by
  simp only [goodHostChar, Bool.not_eq_true', Bool.or_eq_false_iff] at h
  exact h.1.1.1.1.2

/-- A host character is not `:`. -/
theorem goodHost_not_colon {c : Char} (h : goodHostChar c = true) : (c == ':') = false := by
  simp only [goodHostChar, Bool.not_eq_true', Bool.or_eq_false_iff] at h
  exact h.1.1.1.1.1.1

/-- A host character is not `[`. -/
theorem goodHost_not_lbracket {c : Char} (h : goodHostChar c = true) : c ≠ ('[') := by
  simp only [goodHostChar, Bool.not_eq_true', Bool.or_eq_false_iff] at h
  simpa using h.1.2

/-- Every character of a separator-clean path is neither `#` nor
`?`. -/
theorem pathOfSegs_chars (segs : List String)
    (hs : ∀ seg ∈ segs, ∀ c ∈ seg.data, goodSegChar c = true) :
    ∀ c ∈ (pathOfSegs segs).data, (c == '#') = false ∧ (c == '?') = false := by
  induction segs with
  | nil => intro c hc; exact absurd hc (by simp [pathOfSegs])
  | cons s rest ih =>
    intro c hc
    simp only [pathOfSegs, String.data_append] at hc
    rcases List.mem_append.mp hc with hc1 | hc2
    · rcases List.mem_append.mp hc1 with hc3 | hc4
      · simp only [List.mem_singleton.mp (by simpa using hc3)]
        exact ⟨by decide, by decide⟩
      · have := hs s (List.mem_cons_self s rest) c hc4
        simp only [goodSegChar, Bool.not_eq_true', Bool.or_eq_false_iff] at this
        exact ⟨this.2, this.1.2⟩
    · exact ih (fun seg hseg => hs seg (List.mem_cons_of_mem s hseg)) c hc2

/-- The character data of a separator-clean path: empty, or `/`
followed by a tail. -/
theorem pathOfSegs_shape (segs : List String) :
    (pathOfSegs segs).data = [] ∨ ∃ tl, (pathOfSegs segs).data = ('/') :: tl := by
  cases segs with
  | nil => exact Or.inl rfl
  | cons s rest =>
    refine Or.inr ⟨s.data ++ (pathOfSegs rest).data, ?_⟩
    simp [pathOfSegs, String.data_append]

/-- The authority part of a clean SPIFFE string parses to its host
alone: no userinfo, no port. -/
theorem parseAuthority_host (host : String) (hh : host ≠ (""))
    (hhc : ∀ c ∈ host.data, goodHostChar c = true) :
    parseAuthority host.data =
      some ((""), (none : Option String), some (Host.domain host), (none : Option String)) := by
  unfold parseAuthority
  rw [splitAtFirst_eq_none _ _ (fun c hc => goodHost_not_at (hhc c hc))]
  unfold parseHostPort
  rw [if_neg (str_data_ne_nil hh)]
  rw [if_neg ?hb]
  case hb =>
    cases hd : host.data with
    | nil => exact absurd hd (str_data_ne_nil hh)
    | cons c cs =>
      have := goodHost_not_lbracket (hhc c (hd ▸ List.mem_cons_self c cs))
      simp [this]
  rw [splitAtFirst_eq_none _ _ (fun c hc => goodHost_not_colon (hhc c hc))]
  rfl

/-- The model URL parser on a clean SPIFFE ID string recovers exactly
the scheme, host and path it was built from. -/
theorem parseUrl_spiffe (host : String) (segs : List String)
    (hh : host ≠ (""))
    (hhc : ∀ c ∈ host.data, goodHostChar c = true)
    (hs : ∀ seg ∈ segs, ∀ c ∈ seg.data, goodSegChar c = true) :
    parseUrl (("spiffe://") ++ host ++ pathOfSegs segs) =
      some (ParsedUrl.mk ("spiffe") ("") none (some (Host.domain host)) none
        (pathOfSegs segs) none none) := by
  have hdata : (("spiffe://") ++ host ++ pathOfSegs segs).data
      = [('s'), ('p'), ('i'), ('f'), ('f'), ('e')] ++
        ((':') :: (('/') :: ('/') :: (host.data ++ (pathOfSegs segs).data))) := by
    simp only [String.data_append]
    rfl
  unfold parseUrl
  rw [hdata]
  rw [splitAtFirst_append _ _ _ _ (by decide) (by decide)]
  simp only []
  rw [if_neg (by decide), if_pos (by rfl)]
  show parseAfterAuthorityStart _ (host.data ++ (pathOfSegs segs).data) = _
  have hpc := pathOfSegs_chars segs hs
  rcases pathOfSegs_shape segs with hpd | ⟨tl, hpd⟩
  · have hpath : pathOfSegs segs = ("") := str_ext hpd
    rw [hpd, List.append_nil]
    simp only [parseAfterAuthorityStart,
      splitAtFirst_eq_none _ _ (fun c hc => goodHost_not_authEnd (hhc c hc)),
      parseAuthority_host host hh hhc]
    simp [splitAtFirst, hpath]
    decide
  · rw [hpd]
    have hfrag : splitAtFirst (fun c => c == '#') (('/') :: tl) = ((('/') :: tl), none) :=
      splitAtFirst_eq_none _ _ (fun c hc => (hpc c (hpd ▸ hc)).1)
    have hquery : splitAtFirst (fun c => c == '?') (('/') :: tl) = ((('/') :: tl), none) :=
      splitAtFirst_eq_none _ _ (fun c hc => (hpc c (hpd ▸ hc)).2)
    have hpath : String.mk (('/') :: tl) = pathOfSegs segs := str_ext (by rw [hpd])
    simp only [parseAfterAuthorityStart,
      splitAtFirst_append (fun c => c == '/' || c == '?' || c == '#') host.data ('/') tl
        (fun c hc => goodHost_not_authEnd (hhc c hc)) (by decide),
      parseAuthority_host host hh hhc, hfrag, hquery]
    simp [hpath]
    decide

/-- A successful `SpiffeID::new` factors through the URL collaborator
followed by the SPIFFE checks. -/
theorem new_ok_parse (s : String) (id : SpiffeID)
    (h : SpiffeID.new s = Except.ok id) :
    ∃ u, parseUrl s = some u ∧ newFromUrl u = Except.ok id := by
  unfold SpiffeID.new at h
  cases hp : parseUrl s with
  | none =>
    rw [hp] at h
    exact absurd h (by simp)
  | some u =>
    rw [hp] at h
    exact ⟨u, rfl, h⟩

/-- `workload_id` on any `SpiffeID` value: it is `Some` exactly when
the first path segment exists and is non-empty, and then carries the
segments joined with `/`. -/
theorem workload_id_spec (id : SpiffeID) :
    (id.workload_id).isSome = firstSegNonempty id ∧
    ∀ segs, id.url.path_segments = some segs →
      id.workload_id =
        (if firstSegNonempty id then some (String.intercalate ("/") segs) else none) := by
  cases hps : id.url.path_segments with
  | none => simp [SpiffeID.workload_id, firstSegNonempty, hps]
  | some segs =>
    have hne : segs ≠ [] := by
      have hnil := splitChar_ne_nil ('/') id.url.path.data.tail
      simp only [ParsedUrl.path_segments] at hps
      by_cases hh : id.url.path.data.head? = some ('/')
      · rw [if_pos hh] at hps
        injection hps with hps
        rw [← hps]
        simpa using hnil
      · rw [if_neg hh] at hps
        exact absurd hps (by simp)
    obtain ⟨s0, rest, rfl⟩ : ∃ s0 rest, segs = s0 :: rest := by
      cases segs with
      | nil => exact absurd rfl hne
      | cons a b => exact ⟨a, b, rfl⟩
    constructor
    · cases h0 : s0.isEmpty <;>
        simp [SpiffeID.workload_id, SpiffeID.is_workload, firstSegNonempty, hps, h0]
    · intro segs' hseg
      injection hseg with hseg
      cases hseg
      cases h0 : s0.isEmpty <;>
        simp [SpiffeID.workload_id, SpiffeID.is_workload, firstSegNonempty, hps, h0]

/-- C1.  The claim says no core operation aborts; the code does abort:
`from_certificate` hits `unimplemented!()` on every certificate whose
single URI SAN is a valid SPIFFE ID, and `trust_domain()` hits
`expect("Bug on Host validation")` on an accepted SPIFFE ID whose host
is an IPv6 address (where `Url::domain()` is `none`). -/
theorem c1_never_aborts_violated :
    X509SVID.from_certificate c1cert = PanicOr.panicked ("not implemented") ∧
    SpiffeID.new ("spiffe://[::1]/a") = Except.ok c1ipv6 ∧
    SpiffeID.trust_domain c1ipv6 = PanicOr.panicked ("Bug on Host validation") := by
  decide

/-- C2.  The claim says a conforming certificate yields
`Ok(X509SVID ...)`; on the spec's own §8 scenario-5 certificate the
SPIFFE-ID validation succeeds and `from_certificate` then aborts at
`unimplemented!()` instead of constructing the value. -/
theorem c2_construction_unreachable :
    validate_spiffe_id c2cert = Except.ok (SpiffeID.mk c2url) ∧
    X509SVID.from_certificate c2cert = PanicOr.panicked ("not implemented") := by
  decide

/-- C3 counterexample.  A certificate with two URI SAN entries whose
first is not a valid SPIFFE ID is rejected with the wrapped parse
error, not the more-than-one-URI error the claim promises for every
two-or-more-URI certificate. -/
theorem c3_counterexample :
    validate_spiffe_id c3cert =
      Except.error (SvidParseError.invalidSPIFFEID ParseError.invalidUrl) ∧
    validate_spiffe_id c3cert ≠
      Except.error (SvidParseError.invalidSVID
        (("More than one SAN URI Type found: ") ++ rustDebugList [("spiffe://b.org/y")])) := by
  decide

/-- C3 (amended).  Zero URI SAN entries fail with the missing-identity
errors (`Doesn't has SAN` without the extension, `Doesn't has URI SAN`
with it); two or more URI entries whose first parses as a SPIFFE ID
fail with the more-than-one-URI error carrying the entries after the
first. -/
theorem c3_san_cardinality (cert : X509) :
    (cert.subject_alt_names = none →
      validate_spiffe_id cert =
        Except.error (SvidParseError.invalidSVID ("Doesn't has SAN"))) ∧
    (∀ sans, cert.subject_alt_names = some sans → uriEntries sans = [] →
      validate_spiffe_id cert =
        Except.error (SvidParseError.invalidSVID ("Doesn't has URI SAN"))) ∧
    (∀ sans first rest id, cert.subject_alt_names = some sans →
      uriEntries sans = first :: rest → rest ≠ [] →
      SpiffeID.new first = Except.ok id →
      validate_spiffe_id cert =
        Except.error (SvidParseError.invalidSVID
          (("More than one SAN URI Type found: ") ++ rustDebugList rest))) := by
  refine ⟨?_, ?_, ?_⟩
  · intro h1
    simp [validate_spiffe_id, h1]
  · intro sans h1 h2
    simp [validate_spiffe_id, h1, h2]
  · intro sans first rest id h1 h2 h3 h4
    simp [validate_spiffe_id, h1, h2, h4, h3]

/-- C3 witness: the amended theorem at a concrete two-URI
certificate. -/
theorem c3_witness :
    validate_spiffe_id c3cert2 =
      Except.error (SvidParseError.invalidSVID
        (("More than one SAN URI Type found: ") ++ rustDebugList [("spiffe://b.org/y")])) :=
  (c3_san_cardinality c3cert2).2.2
    [GeneralName.uri ("spiffe://a.org/x"), GeneralName.uri ("spiffe://b.org/y")]
    ("spiffe://a.org/x") [("spiffe://b.org/y")]
    (SpiffeID.mk (ParsedUrl.mk ("spiffe") ("") none (some (Host.domain ("a.org")))
      none ("/x") none none))
    (by decide) (by decide) (by decide) (by decide)

/-- C4.  The claim says classification is total with contradictory
combinations rejected as `AmbiguousCertificateType`; the source's
`validate_svid` body is `unimplemented!()` and `from_certificate`
aborts before any classification, even on a certificate with
`isCA = false` and only `keyCertSign` usage. -/
theorem c4_classification_unimplemented :
    validate_svid c4cert = PanicOr.panicked ("not implemented") ∧
    X509SVID.from_certificate c4cert = PanicOr.panicked ("not implemented") := by
  decide

/-- C5.  On every parsed URL, `SpiffeID::new`'s validation agrees with
the spec's fixed check order — scheme, host presence, fragment, query,
port, password, username — reporting the first failing check's error
kind rendered through its own message template. -/
theorem c5_validation_order (u : ParsedUrl) : newFromUrl u = specResult u :=
  newFromUrl_eq_specResult u

/-- C6 counterexample.  A syntactically parsed URI with a port but a
non-`spiffe` scheme fails with the scheme error, not a
disallowed-component error; one with a query but no host fails with
the missing-host error. -/
theorem c6_counterexample :
    parseUrl ("http://example.org:8443/ns") = some c6httpUrl ∧
    newFromUrl c6httpUrl ≠
      Except.error (ParseError.invalidSPIFFEID (componentMsg UrlComponent.port ("8443"))) ∧
    newFromUrl c6httpUrl =
      Except.error (renderIdError c6httpUrl (IdErrorKind.invalidScheme ("http"))) ∧
    parseUrl ("spiffe://?a") = some c6noHostUrl ∧
    newFromUrl c6noHostUrl ≠
      Except.error (ParseError.invalidSPIFFEID (componentMsg UrlComponent.query ("a"))) ∧
    newFromUrl c6noHostUrl =
      Except.error (renderIdError c6noHostUrl IdErrorKind.missingTrustDomain) := by
  decide

/-- C6 (amended).  On every parsed URL that passes the scheme and host
checks, the first forbidden component present — in the order fragment,
query, port, password, username — is reported with that component's
message carrying its value. -/
theorem c6_disallowed_component (u : ParsedUrl) (comp : UrlComponent) (val : String)
    (h1 : lowerString u.scheme = ("spiffe")) (h2 : u.host.isSome = true)
    (h3 : firstDisallowed u = some (comp, val)) :
    newFromUrl u = Except.error (ParseError.invalidSPIFFEID (componentMsg comp val)) := by
  rw [newFromUrl_eq_specResult]
  simp [specResult, specValidate, h1, h2, h3, renderIdError]

/-- C6 witness: the amended theorem at the spec's §8 scenario 3,
`spiffe://example.org:8443/ns`. -/
theorem c6_witness :
    newFromUrl c6portUrl =
      Except.error (ParseError.invalidSPIFFEID (componentMsg UrlComponent.port ("8443"))) :=
  c6_disallowed_component c6portUrl UrlComponent.port ("8443")
    (by decide) (by decide) (by decide)

/-- C7 counterexample.  `SPIFFE://example.org/ns/svc` is a valid
SPIFFE ID string (the scheme check is case-insensitive) and parses
successfully, but the URL library lower-cases the scheme, so the
canonical string differs from the input. -/
theorem c7_counterexample :
    SpiffeID.new ("SPIFFE://example.org/ns/svc") = Except.ok c7badId ∧
    SpiffeID.to_string c7badId = ("spiffe://example.org/ns/svc") ∧
    SpiffeID.to_string c7badId ≠ ("SPIFFE://example.org/ns/svc") := by
  decide

/-- C7 (amended).  For every SPIFFE ID string built from a lowercase
`spiffe` scheme, a non-empty delimiter-free host and delimiter-free
path segments, parsing succeeds and the canonical string form
reproduces the input exactly. -/
theorem c7_roundtrip (host : String) (segs : List String)
    (hh : host ≠ ("")) (hhc : ∀ c ∈ host.data, goodHostChar c = true)
    (hs : ∀ seg ∈ segs, ∀ c ∈ seg.data, goodSegChar c = true) :
    SpiffeID.new (("spiffe://") ++ host ++ pathOfSegs segs) =
      Except.ok (SpiffeID.mk (ParsedUrl.mk ("spiffe") ("") none
        (some (Host.domain host)) none (pathOfSegs segs) none none)) ∧
    SpiffeID.to_string (SpiffeID.mk (ParsedUrl.mk ("spiffe") ("") none
        (some (Host.domain host)) none (pathOfSegs segs) none none)) =
      ("spiffe://") ++ host ++ pathOfSegs segs := by
  constructor
  · unfold SpiffeID.new
    rw [parseUrl_spiffe host segs hh hhc hs]
    simp only [newFromUrl]
    rw [if_pos (by decide)]
    simp
  · apply str_ext
    simp [SpiffeID.to_string, serializeUrl, hostToString, String.data_append]

/-- C7 witness: the amended round-trip at `spiffe://example.org/ns/svc`
(the spec's §8 scenario 1 identity). -/
theorem c7_witness :
    SpiffeID.new (("spiffe://") ++ ("example.org") ++ pathOfSegs [("ns"), ("svc")]) =
      Except.ok (SpiffeID.mk (ParsedUrl.mk ("spiffe") ("") none
        (some (Host.domain ("example.org"))) none (pathOfSegs [("ns"), ("svc")])
        none none)) :=
  (c7_roundtrip ("example.org") [("ns"), ("svc")] (by decide) (by decide) (by decide)).1

/-- C8 counterexample.  `spiffe://example.org` (no trailing slash) is
accepted with an empty stored path: there `workload_id()` is `none`
while `is_workload()` (hence not `is_root()`) still holds, refuting
the claimed equivalence. -/
theorem c8_counterexample :
    SpiffeID.new ("spiffe://example.org") = Except.ok c8id ∧
    ¬(c8id.is_root = true ↔ c8id.workload_id = none) := by
  decide

/-- C8 (amended).  For every parsed `SpiffeID`: `workload_id()` is
`Some` of the `/`-joined segments exactly when the first path segment
is non-empty; and whenever the stored path is non-empty, `is_root()`
(the negation of `is_workload()`) holds exactly when `workload_id()`
is `none`.  The equivalence fails only on the empty-path form. -/
theorem c8_workload_root (s : String) (id : SpiffeID)
    (h : SpiffeID.new s = Except.ok id) :
    ((id.workload_id).isSome = firstSegNonempty id) ∧
    (∀ segs, id.url.path_segments = some segs →
      id.workload_id =
        (if firstSegNonempty id then some (String.intercalate ("/") segs) else none)) ∧
    (id.url.path ≠ ("") → (id.is_root = true ↔ id.workload_id = none)) := by
  refine ⟨(workload_id_spec id).1, (workload_id_spec id).2, ?_⟩
  intro hpne
  obtain ⟨u, hp, hn⟩ := new_ok_parse s id h
  obtain ⟨hurl, hhost⟩ := newFromUrl_ok u id hn
  have hshape := parseUrl_path_shape s u hp hhost
  have hhead : u.path.data.head? = some ('/') := by
    rcases hshape with h1 | h1
    · rw [hurl] at hpne
      exact absurd h1 (str_data_ne_nil hpne)
    · exact h1
  have hps : id.url.path_segments =
      some ((splitChar ('/') u.path.data.tail).map String.mk) := by
    rw [hurl]
    simp [ParsedUrl.path_segments, hhead]
  obtain ⟨g, gs, hg⟩ : ∃ g gs, splitChar ('/') u.path.data.tail = g :: gs := by
    cases hw : splitChar ('/') u.path.data.tail with
    | nil => exact absurd hw (splitChar_ne_nil ('/') u.path.data.tail)
    | cons g gs => exact ⟨g, gs, rfl⟩
  rw [hg] at hps
  cases h0 : (String.mk g).isEmpty <;>
    simp [SpiffeID.is_root, SpiffeID.is_workload, SpiffeID.workload_id, hps, h0]

/-- C8 witness: the amended theorem at `spiffe://example.org/ns/svc`,
the spec's §8 scenario 1. -/
theorem c8_witness :
    (c8wid.workload_id).isSome = firstSegNonempty c8wid :=
  (c8_workload_root ("spiffe://example.org/ns/svc") c8wid (by decide)).1

/-- C9 counterexample.  Parsing accepts `spiffe://example.org//a` and
the resulting `SpiffeID` carries the empty path segment, refuting the
claimed non-empty-segment invariant. -/
theorem c9_counterexample :
    SpiffeID.new ("spiffe://example.org//a") = Except.ok c9id ∧
    c9id.url.path_segments = some [(""), ("a")] ∧
    c9id.workload_id = none := by
  decide

/-- C9 (amended).  Parsing does not reject empty path segments; what
holds instead is that a parsed `SpiffeID` whose first path segment is
empty reports no workload: `workload_id()` is `none` and
`is_workload()` is `false`. -/
theorem c9_empty_segment_no_workload (s : String) (id : SpiffeID)
    (_h : SpiffeID.new s = Except.ok id) (segs : List String)
    (h2 : id.url.path_segments = some segs) (h3 : segs.head? = some ("")) :
    id.workload_id = none ∧ id.is_workload = false := by
  have hw : id.is_workload = false := by
    simp only [SpiffeID.is_workload, h2, h3]
    decide
  exact ⟨by simp [SpiffeID.workload_id, h2, hw], hw⟩

/-- C9 witness: the amended theorem at `spiffe://example.org///aaa`,
the input the repository's `test_root_path` accepts. -/
theorem c9_witness : c9wid.workload_id = none ∧ c9wid.is_workload = false :=
  c9_empty_segment_no_workload ("spiffe://example.org///aaa") c9wid (by decide)
    [(""), (""), ("aaa")] (by decide) (by decide)

/-- C10.  `validate_spiffe_id` parses the first URI SAN before looking
at the rest: with two or more URI entries, an invalid first URI is
reported as the wrapped SPIFFE-ID parse error, and the
more-than-one-URI error appears only when the first URI parses. -/
theorem c10_first_uri_parsed_first (cert : X509) (sans : List GeneralName)
    (first : String) (rest : List String)
    (h1 : cert.subject_alt_names = some sans)
    (h2 : uriEntries sans = first :: rest) (h3 : rest ≠ []) :
    (∀ e, SpiffeID.new first = Except.error e →
      validate_spiffe_id cert = Except.error (SvidParseError.invalidSPIFFEID e)) ∧
    (∀ id, SpiffeID.new first = Except.ok id →
      validate_spiffe_id cert = Except.error (SvidParseError.invalidSVID
        (("More than one SAN URI Type found: ") ++ rustDebugList rest))) := by
  constructor
  · intro e he
    simp [validate_spiffe_id, h1, h2, he]
  · intro id hid
    simp [validate_spiffe_id, h1, h2, hid, h3]

/-- C10 witness: the theorem at a concrete two-URI certificate whose
first URI is not a URL. -/
theorem c10_witness :
    validate_spiffe_id c10cert =
      Except.error (SvidParseError.invalidSPIFFEID ParseError.invalidUrl) :=
  (c10_first_uri_parsed_first c10cert
    [GeneralName.uri ("not-a-url"), GeneralName.uri ("spiffe://b.org/y")]
    ("not-a-url") [("spiffe://b.org/y")] (by decide) (by decide) (by decide)).1
    ParseError.invalidUrl (by decide)

end Rsvid
